import Mathlib

/-!
Shallow embedding of `src/app.py`: a land-use ingestion and filtered
retrieval pipeline (shapefile → projected/areaed PostGIS table →
filtered, reprojected query) for the Andalucía land-use viewer.

Geometries are modelled as polygon rings with rational coordinates
tagged by an SRID; planar area is the shoelace area.  Coordinate
reprojection (`to_crs` / `ST_Transform`) is an abstract function
parameter, universally quantified in every theorem.  The PostGIS store
is a reachability flag plus an optional table of rows; the SQL query is
modelled as the literal query string paired with its optional bound
parameter, exactly as `obtener_datos_filtrados` builds it.
-/

set_option autoImplicit false

namespace Geo

/-- A point of a planar or geographic coordinate system. -/
abbrev Pt := ℚ × ℚ

/-- A polygon geometry: an SRID tag and the exterior ring. -/
structure Geometry where
  srid : Int
  ring : List Pt
  deriving DecidableEq, Repr

/-- Cross product term of the shoelace formula. -/
def cross (p q : Pt) : ℚ := p.1 * q.2 - q.1 * p.2

/-- Sum of the shoelace terms along the ring, closing back at `p0`. -/
def shoelaceAux (p0 : Pt) : List Pt → ℚ
  | [] => 0
  | [p] => cross p p0
  | p :: q :: rest => cross p q + shoelaceAux p0 (q :: rest)

/-- Twice the signed planar area of a ring. -/
def shoelace2 : List Pt → ℚ
  | [] => 0
  | p :: rest => shoelaceAux p (p :: rest)

/-- Planar area of a geometry (geopandas `.area`), in the squared linear
unit of its coordinate system. -/
def Geometry.area (g : Geometry) : ℚ := |shoelace2 g.ring| / 2

/-- `TABLA_POSTGIS` from `app.py`. -/
def TABLA_POSTGIS : String := "andalucia_usos_suelo"

/-- `ZONAS_VERDES` from `app.py`: the recognized filter labels besides
the sentinel. -/
def ZONAS_VERDES : List String := ["Bosques", "Reservas naturales"]

/-- `SRID_PROYECTO` from `app.py`: ETRS89 / UTM zone 30N. -/
def SRID_PROYECTO : Int := 25830

/-- `SRID_MAPA` from `app.py`: WGS 84. -/
def SRID_MAPA : Int := 4326

/-- `HECTARES_PER_SQM` from `app.py`. -/
def HECTARES_PER_SQM : ℚ := 10000

/-- Round to the nearest integer, ties to even (numpy/pandas `.round`
semantics on exact values). -/
def roundHalfEven (x : ℚ) : ℤ :=
  let f : ℤ := ⌊x⌋
  let d : ℚ := x - f
  if d < 1 / 2 then f
  else if 1 / 2 < d then f + 1
  else if f % 2 = 0 then f else f + 1

/-- `.round(1)`: round to one decimal place. -/
def round1 (x : ℚ) : ℚ := (roundHalfEven (10 * x) : ℚ) / 10

/-- One record of the source shapefile: the attributes the pipeline
keeps, plus arbitrary further columns that selection drops. -/
structure SourceRow where
  fclass : String
  name : Option String
  geometry : Geometry
  extra : List (String × String)
  deriving DecidableEq, Repr

/-- One prepared/stored feature: exactly the four canonical columns
`['fclass', 'name', 'superficie_ha', 'geometry']`. -/
structure Feature where
  fclass : String
  name : Option String
  superficie_ha : ℚ
  geometry : Geometry
  deriving DecidableEq, Repr

/-- Abstract coordinate reprojection (`to_crs` / `ST_Transform`): maps a
geometry to a target SRID. -/
abbrev Reproj := Geometry → Int → Geometry

/-- Per-row body of `cargar_y_preparar_datos`: reproject to
`SRID_PROYECTO`, derive `superficie_ha = round(area / 10000, 1)`, keep
the four canonical columns. -/
def prepararFila (reproj : Reproj) (r : SourceRow) : Feature :=
  let g := reproj r.geometry SRID_PROYECTO
  { fclass := r.fclass, name := r.name,
    superficie_ha := round1 (g.area / HECTARES_PER_SQM), geometry := g }

/-- `cargar_y_preparar_datos`: `none` models the source file being
unreadable (`FileNotFoundError` caught, returns `None`); an empty parse
also returns `None`; otherwise every row is prepared. -/
def cargar_y_preparar_datos (reproj : Reproj) (src : Option (List SourceRow)) :
    Option (List Feature) :=
  match src with
  | none => none
  | some [] => none
  | some rows => some (rows.map (prepararFila reproj))

/-- Errors the store can raise (SQLAlchemy exceptions by cause). -/
inductive DbError where
  | connectionError
  | tableMissing
  | otherError
  deriving DecidableEq, Repr

/-- The PostGIS store: reachability plus the optional
`andalucia_usos_suelo` table. `table = none` means no ingestion has ever
created it. -/
structure Store where
  reachable : Bool
  table : Option (List Feature)
  deriving DecidableEq, Repr

/-- Engine lifecycle events of `get_db_connection`. -/
inductive Ev where
  | acquire
  | dispose
  deriving DecidableEq, Repr

/-- `get_db_connection`: the `contextmanager` wrapping `create_engine` /
`engine.dispose()` in `try`/`finally`.  Returns the engine-event trace
together with the body's outcome: when creation succeeds the engine is
disposed on the normal and on the exceptional exit alike; when
`create_engine` itself fails the `if engine:` guard skips disposal. -/
def get_db_connection {α : Type} (createOk : Bool) (body : Except DbError α) :
    List Ev × Except DbError α :=
  if createOk then
    match body with
    | .ok a => ([Ev.acquire, Ev.dispose], .ok a)
    | .error e => ([Ev.acquire, Ev.dispose], .error e)
  else ([], .error .connectionError)

/-- `gdf.to_postgis(..., if_exists='replace')`: replaces the table's
contents wholesale, or raises when the store is unreachable. -/
def to_postgis (store : Store) (gdf : List Feature) : Except DbError Store :=
  if store.reachable then .ok { store with table := some gdf }
  else .error .connectionError

/-- `cargar_a_postgis`: write inside the connection scope; exceptions
are caught and reported as `False`, leaving the store as it was. -/
def cargar_a_postgis (store : Store) (gdf : List Feature) :
    List Ev × Store × Bool :=
  let (tr, r) := get_db_connection true (to_postgis store gdf)
  match r with
  | .ok s => (tr, s, true)
  | .error _ => (tr, store, false)

/-- `base_query` from `obtener_datos_filtrados`, built exactly as the
f-string builds it. -/
def base_query : String :=
  "SELECT fclass, name, superficie_ha, " ++
    "ST_Transform(geometry, " ++ toString SRID_MAPA ++ ") AS geometry " ++
    "FROM " ++ TABLA_POSTGIS

/-- Python truthiness of an `Optional[str]`. -/
def truthy : Option String → Bool
  | none => false
  | some s => s != ""

/-- Query construction of `obtener_datos_filtrados`: the SQL text and
the optional bound parameter dictionary entry.  The label itself is
never interpolated into the text; it only selects the parameter value
via `'forest' if fclass_filtro == 'Bosques' else 'nature_reserve'`. -/
def construir_consulta (fclass_filtro : Option String) :
    String × Option (String × String) :=
  if truthy fclass_filtro && (fclass_filtro != some "Todos") then
    let fparam := if fclass_filtro == some "Bosques" then "forest"
      else "nature_reserve"
    (base_query ++ " WHERE fclass = %(fclass)s", some ("fclass", fparam))
  else
    (base_query, none)

/-- `gpd.read_postgis` against the store: connection failure and missing
table raise; otherwise `ST_Transform(geometry, 4326)` is applied to
every row and the optional bound `fclass` parameter restricts by
equality. -/
def ejecutar_consulta (reproj : Reproj) (store : Store)
    (consulta : String × Option (String × String)) :
    Except DbError (List Feature) :=
  if store.reachable then
    match store.table with
    | none => .error .tableMissing
    | some rows =>
        let transformadas := rows.map
          (fun r => { r with geometry := reproj r.geometry SRID_MAPA })
        match consulta.2 with
        | none => .ok transformadas
        | some pv => .ok (transformadas.filter (fun r => r.fclass == pv.2))
  else .error .connectionError

/-- `obtener_datos_filtrados` with its engine-event trace: query inside
the connection scope; every exception is caught and an empty
GeoDataFrame is returned. -/
def obtener_datos_filtrados_run (reproj : Reproj) (store : Store)
    (fclass_filtro : Option String) : List Ev × List Feature :=
  let (tr, r) := get_db_connection true
    (ejecutar_consulta reproj store (construir_consulta fclass_filtro))
  match r with
  | .ok gdf => (tr, gdf)
  | .error _ => (tr, [])

/-- The value `obtener_datos_filtrados` returns to its caller. -/
def obtener_datos_filtrados (reproj : Reproj) (store : Store)
    (fclass_filtro : Option String) : List Feature :=
  (obtener_datos_filtrados_run reproj store fclass_filtro).2

/-- The `st.cache_data` memo of `obtener_datos_filtrados`, keyed by the
filter argument. -/
abbrev Cache := List (Option String × List Feature)

/-- A retrieval through the `st.cache_data` memo: a hit returns the
cached value, a miss computes against the store and records the
result. -/
def obtener_datos_filtrados_cached (reproj : Reproj) (store : Store)
    (cache : Cache) (fclass_filtro : Option String) :
    List Feature × Cache :=
  match cache.lookup fclass_filtro with
  | some v => (v, cache)
  | none =>
      let v := obtener_datos_filtrados reproj store fclass_filtro
      (v, (fclass_filtro, v) :: cache)

/-- The `Cargar` button handler in `configurar_sidebar`: prepare the
data; only when preparation succeeded, write to PostGIS and clear the
`st.cache_data` memo. -/
def boton_cargar (reproj : Reproj) (src : Option (List SourceRow))
    (store : Store) (cache : Cache) : Store × Cache :=
  match cargar_y_preparar_datos reproj src with
  | none => (store, cache)
  | some gdf =>
      let (_, s, _) := cargar_a_postgis store gdf
      (s, [])

/-- An engine-event trace is balanced when every created engine is
disposed. -/
def balanced (tr : List Ev) : Prop := tr.count Ev.acquire = tr.count Ev.dispose

/-- Identity reprojection (only retags), used for concrete witnesses. -/
def reprojId : Reproj := fun g _ => g

/-- A 100 m × 100 m square test parcel. -/
def cuadrado100 : SourceRow :=
  { fclass := "forest", name := some "Pinar",
    geometry := { srid := 25830, ring := [(0, 0), (100, 0), (100, 100), (0, 100)] },
    extra := [("osm_id", "123")] }

/-- A stored nature-reserve feature, used for concrete witnesses. -/
def filaReserva : Feature :=
  { fclass := "nature_reserve", name := some "Cabo de Gata",
    superficie_ha := 3 / 2,
    geometry := { srid := 25830, ring := [(0, 0), (1, 0), (1, 1), (0, 1)] } }

/-- A reachable store holding one nature-reserve row. -/
def storeReserva : Store := { reachable := true, table := some [filaReserva] }

/-- A reachable store whose table was never created. -/
def storeSinTabla : Store := { reachable := true, table := none }

/-- An unreachable store. -/
def storeCaida : Store := { reachable := false, table := none }

/-- A reachable store holding an empty table. -/
def storeVacia : Store := { reachable := true, table := some [] }

/-- A filter label full of quote and SQL metacharacters, used for the
injection-safety witness. -/
def etiquetaInyeccion : String := "x\"; DROP TABLE usuarios; --"

/-- C1 counterexample: the label `Desconocido` is outside the recognized
mapping (`ZONAS_VERDES`) and is not the sentinel `Todos`, yet
`obtener_datos_filtrados` neither errors nor returns an empty set: the
fallback `else 'nature_reserve'` makes it match the stored
nature-reserve row. -/
theorem obtener_unknown_label_matches_nature_reserve_cex :
    ("Desconocido" ∉ ZONAS_VERDES ∧ "Desconocido" ≠ "Todos") ∧
    filaReserva.fclass = "nature_reserve" ∧
    obtener_datos_filtrados reprojId storeReserva (some "Desconocido") =
      [filaReserva] :=
  ⟨⟨by decide, by decide⟩, rfl, rfl⟩

/-- C1 (amended): every truthy filter label other than `Todos` and
`Bosques` — recognized (`Reservas naturales`) or not — is mapped to the
`nature_reserve` category code, so an unrecognized label behaves exactly
like the `Reservas naturales` filter: same query, same parameter, same
result set (it can match nature-reserve rows; it never errors and is
not generally empty). -/
theorem obtener_unknown_label_fallback (reproj : Reproj) (store : Store)
    (s : String) (h₁ : s ≠ "") (h₂ : s ≠ "Todos") (h₃ : s ≠ "Bosques") :
    construir_consulta (some s) = construir_consulta (some "Reservas naturales") ∧
    obtener_datos_filtrados reproj store (some s) =
      obtener_datos_filtrados reproj store (some "Reservas naturales") := by
  have hc : construir_consulta (some s) =
      construir_consulta (some "Reservas naturales") := by
    simp [construir_consulta, truthy, h₁, h₂, h₃]
  exact ⟨hc, by simp [obtener_datos_filtrados, obtener_datos_filtrados_run, hc]⟩

/-- C1 witness: the amended claim at the unrecognized label
`Desconocido` against the nature-reserve store. -/
theorem obtener_unknown_label_fallback_witness :
    ("Desconocido" ≠ "" ∧ "Desconocido" ≠ "Todos" ∧ "Desconocido" ≠ "Bosques") ∧
    (construir_consulta (some "Desconocido") =
        construir_consulta (some "Reservas naturales") ∧
      obtener_datos_filtrados reprojId storeReserva (some "Desconocido") =
        obtener_datos_filtrados reprojId storeReserva (some "Reservas naturales")) :=
  ⟨⟨by decide, by decide, by decide⟩,
   obtener_unknown_label_fallback reprojId storeReserva "Desconocido"
     (by decide) (by decide) (by decide)⟩

/-- C2: for every reprojection and every non-empty source dataset,
`cargar_y_preparar_datos` succeeds and every output feature pairs with
its source row: the geometry is the source geometry projected into
EPSG:25830, `fclass` and `name` are carried over, and `superficie_ha`
is the planar area of the projected geometry divided by 10000, rounded
to one decimal place.  The output rows are of the `Feature` record,
which carries exactly the four canonical attributes. -/
theorem cargar_y_preparar_datos_area_attrs (reproj : Reproj)
    (rows : List SourceRow) (feats : List Feature)
    (hne : rows ≠ [])
    (h : cargar_y_preparar_datos reproj (some rows) = some feats) :
    List.Forall₂ (fun (r : SourceRow) (f : Feature) =>
      f.geometry = reproj r.geometry SRID_PROYECTO ∧
      f.fclass = r.fclass ∧ f.name = r.name ∧
      f.superficie_ha =
        round1 ((reproj r.geometry SRID_PROYECTO).area / HECTARES_PER_SQM))
      rows feats := by
  cases rows with
  | nil => exact absurd rfl hne
  | cons a l =>
    simp only [cargar_y_preparar_datos, Option.some.injEq] at h
    subst h
    rw [List.forall₂_map_right_iff]
    refine List.forall₂_same.mpr ?_
    intro r _
    simp [prepararFila]

/-- C2 witness: ingesting the single 100 m × 100 m square parcel; its
derived `superficie_ha` is exactly 1.0 ha. -/
theorem cargar_y_preparar_datos_area_attrs_witness :
    (([cuadrado100] : List SourceRow) ≠ [] ∧
      (prepararFila reprojId cuadrado100).superficie_ha = 1) ∧
    List.Forall₂ (fun (r : SourceRow) (f : Feature) =>
      f.geometry = reprojId r.geometry SRID_PROYECTO ∧
      f.fclass = r.fclass ∧ f.name = r.name ∧
      f.superficie_ha =
        round1 ((reprojId r.geometry SRID_PROYECTO).area / HECTARES_PER_SQM))
      [cuadrado100] [prepararFila reprojId cuadrado100] :=
  ⟨⟨by simp, by
      simp [prepararFila, reprojId, cuadrado100, Geometry.area, shoelace2,
        shoelaceAux, cross, round1, roundHalfEven, HECTARES_PER_SQM]
      norm_num⟩,
   cargar_y_preparar_datos_area_attrs reprojId [cuadrado100]
     [prepararFila reprojId cuadrado100] (by simp) rfl⟩

/-- C3 counterexample: querying a reachable store whose table was never
created returns the plain empty GeoDataFrame — a value identical to the
one returned for a genuinely empty table and to the one returned when
the store is unreachable.  No typed `SchemaMissingError` distinguished
from `ConnectionError` is returned to the caller. -/
theorem retrieval_no_table_silent_empty_cex :
    obtener_datos_filtrados reprojId storeSinTabla none = [] ∧
    obtener_datos_filtrados reprojId storeSinTabla none =
      obtener_datos_filtrados reprojId storeVacia none ∧
    obtener_datos_filtrados reprojId storeSinTabla none =
      obtener_datos_filtrados reprojId storeCaida none :=
  ⟨rfl, rfl, rfl⟩

/-- C3 (amended): a retrieval before any successful ingestion does not
crash: the store raises a table-missing error (distinct, internally,
from a connection error), `obtener_datos_filtrados` catches it,
displays a message, and returns an empty GeoDataFrame — at the returned
value this is indistinguishable from an empty success, and no typed
`SchemaMissingError` is surfaced to the caller. -/
theorem retrieval_no_table_caught_empty (reproj : Reproj) (store : Store)
    (fclass_filtro : Option String) (h₁ : store.reachable = true)
    (h₂ : store.table = none) :
    ejecutar_consulta reproj store (construir_consulta fclass_filtro) =
      Except.error DbError.tableMissing ∧
    obtener_datos_filtrados reproj store fclass_filtro = [] := by
  have he : ejecutar_consulta reproj store (construir_consulta fclass_filtro) =
      Except.error DbError.tableMissing := by
    simp [ejecutar_consulta, h₁, h₂]
  exact ⟨he, by
    simp [obtener_datos_filtrados, obtener_datos_filtrados_run, get_db_connection, he]⟩

/-- C3 witness: the amended claim at the reachable table-less store. -/
theorem retrieval_no_table_caught_empty_witness :
    (storeSinTabla.reachable = true ∧ storeSinTabla.table = none) ∧
    (ejecutar_consulta reprojId storeSinTabla (construir_consulta none) =
        Except.error DbError.tableMissing ∧
      obtener_datos_filtrados reprojId storeSinTabla none = []) :=
  ⟨⟨rfl, rfl⟩, retrieval_no_table_caught_empty reprojId storeSinTabla none rfl rfl⟩

/-- C4: for every concrete (truthy, non-`Todos`) filter label the SQL
text is the one fixed template — the same for every label — and the
category code reaches the query only as the bound `fclass` parameter,
whose value is always `forest` or `nature_reserve`; against any
reachable store with a table the query executes without a syntax
error. -/
theorem consulta_parametrizada_fixed_template (s : String)
    (h₁ : s ≠ "") (h₂ : s ≠ "Todos") :
    (construir_consulta (some s)).1 = base_query ++ " WHERE fclass = %(fclass)s" ∧
    ((construir_consulta (some s)).2 = some ("fclass", "forest") ∨
      (construir_consulta (some s)).2 = some ("fclass", "nature_reserve")) ∧
    (∀ t : String, t ≠ "" → t ≠ "Todos" →
      (construir_consulta (some t)).1 = (construir_consulta (some s)).1) ∧
    (∀ (reproj : Reproj) (rows : List Feature),
      ∃ out, ejecutar_consulta reproj { reachable := true, table := some rows }
        (construir_consulta (some s)) = Except.ok out) := by
  have hmain : ∀ u : String, u ≠ "" → u ≠ "Todos" →
      (construir_consulta (some u)).1 = base_query ++ " WHERE fclass = %(fclass)s" := by
    intro u hu1 hu2
    simp [construir_consulta, truthy, hu1, hu2]
  refine ⟨hmain s h₁ h₂, ?_, ?_, ?_⟩
  · by_cases hb : s = "Bosques" <;> simp [construir_consulta, truthy, h₁, h₂, hb]
  · intro t ht1 ht2
    rw [hmain t ht1 ht2, hmain s h₁ h₂]
  · intro reproj rows
    cases hp : (construir_consulta (some s)).2 with
    | none =>
        refine ⟨List.map (fun r => { r with geometry := reproj r.geometry SRID_MAPA })
          rows, ?_⟩
        simp [ejecutar_consulta, hp]
    | some pv =>
        refine ⟨List.filter (fun r => r.fclass == pv.2)
          (List.map (fun r => { r with geometry := reproj r.geometry SRID_MAPA })
            rows), ?_⟩
        simp [ejecutar_consulta, hp]

/-- C4 witness: a label full of quote and SQL metacharacters still
yields the fixed template, a bound parameter, and a syntax-error-free
execution. -/
theorem consulta_parametrizada_fixed_template_witness :
    (etiquetaInyeccion ≠ "" ∧ etiquetaInyeccion ≠ "Todos") ∧
    ((construir_consulta (some etiquetaInyeccion)).1 =
        base_query ++ " WHERE fclass = %(fclass)s" ∧
      ((construir_consulta (some etiquetaInyeccion)).2 = some ("fclass", "forest") ∨
        (construir_consulta (some etiquetaInyeccion)).2 =
          some ("fclass", "nature_reserve")) ∧
      (∀ t : String, t ≠ "" → t ≠ "Todos" →
        (construir_consulta (some t)).1 =
          (construir_consulta (some etiquetaInyeccion)).1) ∧
      (∀ (reproj : Reproj) (rows : List Feature),
        ∃ out, ejecutar_consulta reproj { reachable := true, table := some rows }
          (construir_consulta (some etiquetaInyeccion)) = Except.ok out)) :=
  ⟨⟨by decide, by decide⟩,
   consulta_parametrizada_fixed_template etiquetaInyeccion (by decide) (by decide)⟩

/-- C5: a successful `cargar_a_postgis` replaces the table's contents
with exactly the ingested feature set, regardless of what was stored
before: two stores with arbitrary different prior tables end up with
the identical table.  Retrieval (`obtener_datos_filtrados`) is a pure
read of the store, so ingestion is the only write path. -/
theorem cargar_a_postgis_full_replace (s₁ s₂ : Store) (gdf : List Feature)
    (h₁ : s₁.reachable = true) (h₂ : s₂.reachable = true) :
    (cargar_a_postgis s₁ gdf).2.1.table = some gdf ∧
    (cargar_a_postgis s₁ gdf).2.2 = true ∧
    (cargar_a_postgis s₁ gdf).2.1.table = (cargar_a_postgis s₂ gdf).2.1.table := by
  simp [cargar_a_postgis, get_db_connection, to_postgis, h₁, h₂]

/-- C5 witness: ingesting into a store already holding a row and into a
store holding an empty table leaves both with exactly the new set. -/
theorem cargar_a_postgis_full_replace_witness :
    (storeReserva.reachable = true ∧ storeVacia.reachable = true) ∧
    ((cargar_a_postgis storeReserva [filaReserva]).2.1.table = some [filaReserva] ∧
      (cargar_a_postgis storeReserva [filaReserva]).2.2 = true ∧
      (cargar_a_postgis storeReserva [filaReserva]).2.1.table =
        (cargar_a_postgis storeVacia [filaReserva]).2.1.table) :=
  ⟨⟨rfl, rfl⟩,
   cargar_a_postgis_full_replace storeReserva storeVacia [filaReserva] rfl rfl⟩

/-- C6: both branches of the query carry the `ST_Transform(geometry,
4326)` projection inside the SQL text itself; every feature a
successful query returns is a stored row whose geometry has been
reprojected to `SRID_MAPA` (EPSG:4326) by the query; and the
application code returns the query result as is, applying no further
transformation. -/
theorem consulta_reproyecta_4326 (reproj : Reproj) (store : Store)
    (fclass_filtro : Option String) (rows out : List Feature)
    (hre : store.reachable = true) (htab : store.table = some rows)
    (hok : ejecutar_consulta reproj store (construir_consulta fclass_filtro) =
      Except.ok out) :
    ((construir_consulta fclass_filtro).1 =
        "SELECT fclass, name, superficie_ha, ST_Transform(geometry, 4326) AS geometry FROM andalucia_usos_suelo" ∨
      (construir_consulta fclass_filtro).1 =
        "SELECT fclass, name, superficie_ha, ST_Transform(geometry, 4326) AS geometry FROM andalucia_usos_suelo WHERE fclass = %(fclass)s") ∧
    (∀ f ∈ out, ∃ r ∈ rows, f = { r with geometry := reproj r.geometry SRID_MAPA }) ∧
    obtener_datos_filtrados reproj store fclass_filtro = out := by
  refine ⟨?_, ?_, ?_⟩
  · cases hcond : (truthy fclass_filtro && (fclass_filtro != some "Todos")) with
    | false =>
        left
        simp [construir_consulta, hcond]
        rfl
    | true =>
        right
        simp [construir_consulta, hcond]
        rfl
  · simp only [ejecutar_consulta, hre, htab, if_true] at hok
    cases hp : (construir_consulta fclass_filtro).2 with
    | none =>
        rw [hp] at hok
        simp only [Except.ok.injEq] at hok
        subst hok
        intro f hf
        rcases List.mem_map.mp hf with ⟨r, hr, hfr⟩
        exact ⟨r, hr, hfr.symm⟩
    | some pv =>
        rw [hp] at hok
        simp only [Except.ok.injEq] at hok
        subst hok
        intro f hf
        rcases List.mem_filter.mp hf with ⟨hmem, _⟩
        rcases List.mem_map.mp hmem with ⟨r, hr, hfr⟩
        exact ⟨r, hr, hfr.symm⟩
  · simp [obtener_datos_filtrados, obtener_datos_filtrados_run, get_db_connection, hok]

/-- C6 witness: the unfiltered query against the nature-reserve store. -/
theorem consulta_reproyecta_4326_witness :
    (storeReserva.reachable = true ∧ storeReserva.table = some [filaReserva] ∧
      ejecutar_consulta reprojId storeReserva (construir_consulta none) =
        Except.ok [filaReserva]) ∧
    (((construir_consulta none).1 =
        "SELECT fclass, name, superficie_ha, ST_Transform(geometry, 4326) AS geometry FROM andalucia_usos_suelo" ∨
      (construir_consulta none).1 =
        "SELECT fclass, name, superficie_ha, ST_Transform(geometry, 4326) AS geometry FROM andalucia_usos_suelo WHERE fclass = %(fclass)s") ∧
      (∀ f ∈ [filaReserva], ∃ r ∈ [filaReserva],
        f = { r with geometry := reprojId r.geometry SRID_MAPA }) ∧
      obtener_datos_filtrados reprojId storeReserva none = [filaReserva]) :=
  ⟨⟨rfl, rfl, rfl⟩,
   consulta_reproyecta_4326 reprojId storeReserva none [filaReserva] [filaReserva]
     rfl rfl rfl⟩

/-- C7: when the source file is missing (`none`) or parses to zero
features, `cargar_y_preparar_datos` fails (returns `None`) and the
`Cargar` button handler performs no write at all: the store — whatever
table it held — and the cache are left exactly as they were. -/
theorem ingestion_missing_or_empty_no_write (reproj : Reproj)
    (src : Option (List SourceRow)) (store : Store) (cache : Cache)
    (h : src = none ∨ src = some []) :
    cargar_y_preparar_datos reproj src = none ∧
    boton_cargar reproj src store cache = (store, cache) := by
  rcases h with h | h <;> subst h <;>
    simp [cargar_y_preparar_datos, boton_cargar]

/-- C7 witness: a missing source file against the store holding the
nature-reserve row. -/
theorem ingestion_missing_or_empty_no_write_witness :
    ((none : Option (List SourceRow)) = none ∨
      (none : Option (List SourceRow)) = some []) ∧
    (cargar_y_preparar_datos reprojId none = none ∧
      boton_cargar reprojId none storeReserva [(none, [filaReserva])] =
        (storeReserva, [(none, [filaReserva])])) :=
  ⟨Or.inl rfl,
   ingestion_missing_or_empty_no_write reprojId none storeReserva
     [(none, [filaReserva])] (Or.inl rfl)⟩

/-- C8: after a successful ingestion through the `Cargar` button the
memo of `obtener_datos_filtrados` is cleared, so the next retrieval on
any filter key computes against the post-ingestion store rather than
returning anything cached from before the ingestion. -/
theorem cache_cleared_after_ingestion (reproj : Reproj) (rows : List SourceRow)
    (store : Store) (cache : Cache) (fclass_filtro : Option String)
    (hrows : rows ≠ []) (hst : store.reachable = true) :
    (boton_cargar reproj (some rows) store cache).2 = [] ∧
    (obtener_datos_filtrados_cached reproj
        (boton_cargar reproj (some rows) store cache).1
        (boton_cargar reproj (some rows) store cache).2 fclass_filtro).1 =
      obtener_datos_filtrados reproj
        (boton_cargar reproj (some rows) store cache).1 fclass_filtro := by
  cases rows with
  | nil => exact absurd rfl hrows
  | cons a l =>
    have hb : boton_cargar reproj (some (a :: l)) store cache =
        ({ reachable := store.reachable,
           table := some ((a :: l).map (prepararFila reproj)) }, []) := by
      simp [boton_cargar, cargar_y_preparar_datos, cargar_a_postgis,
        get_db_connection, to_postgis, hst]
    rw [hb]
    exact ⟨rfl, by simp [obtener_datos_filtrados_cached, List.lookup]⟩

/-- C8 witness: ingesting the square parcel into the empty store while
the cache holds a stale entry for the `Bosques` key. -/
theorem cache_cleared_after_ingestion_witness :
    (([cuadrado100] : List SourceRow) ≠ [] ∧ storeVacia.reachable = true) ∧
    ((boton_cargar reprojId (some [cuadrado100]) storeVacia
        [(some "Bosques", [filaReserva])]).2 = [] ∧
      (obtener_datos_filtrados_cached reprojId
          (boton_cargar reprojId (some [cuadrado100]) storeVacia
            [(some "Bosques", [filaReserva])]).1
          (boton_cargar reprojId (some [cuadrado100]) storeVacia
            [(some "Bosques", [filaReserva])]).2 (some "Bosques")).1 =
        obtener_datos_filtrados reprojId
          (boton_cargar reprojId (some [cuadrado100]) storeVacia
            [(some "Bosques", [filaReserva])]).1 (some "Bosques")) :=
  ⟨⟨by simp, rfl⟩,
   cache_cleared_after_ingestion reprojId [cuadrado100] storeVacia
     [(some "Bosques", [filaReserva])] (some "Bosques") (by simp) rfl⟩

/-- C9: the engine scope of `get_db_connection` disposes every engine
it creates on every exit path — on the normal return and when the body
raises alike (and when creation itself fails no engine exists to
dispose) — and both store interactions, the ingestion write and the
retrieval query, run inside that scope, so their engine-event traces
are always balanced. -/
theorem conexion_dispose_every_path :
    (∀ (createOk : Bool) (body : Except DbError (List Feature)),
        balanced (get_db_connection createOk body).1) ∧
    (∀ (store : Store) (gdf : List Feature),
        balanced (cargar_a_postgis store gdf).1) ∧
    (∀ (reproj : Reproj) (store : Store) (fclass_filtro : Option String),
        balanced (obtener_datos_filtrados_run reproj store fclass_filtro).1) := by
  have hg : ∀ {α : Type} (c : Bool) (b : Except DbError α),
      balanced (get_db_connection c b).1 := by
    intro α c b
    cases c <;> cases b <;> simp [get_db_connection, balanced]
  refine ⟨fun c b => hg c b, ?_, ?_⟩
  · intro store gdf
    cases hb : to_postgis store gdf <;>
      simp [cargar_a_postgis, get_db_connection, hb, balanced]
  · intro reproj store fclass_filtro
    cases hb : ejecutar_consulta reproj store (construir_consulta fclass_filtro) <;>
      simp [obtener_datos_filtrados_run, get_db_connection, hb, balanced]

/-- C10: `obtener_datos_filtrados` never propagates a store failure:
whatever error the query raises — connection failure, missing table, or
anything else — the caller receives the empty GeoDataFrame, the same
value a successful query over an empty table returns, so at the
returned value a store failure is indistinguishable from zero
matches. -/
theorem obtener_total_empty_on_failure (reproj : Reproj) (store : Store)
    (fclass_filtro : Option String) (e : DbError)
    (h : ejecutar_consulta reproj store (construir_consulta fclass_filtro) =
      Except.error e) :
    obtener_datos_filtrados reproj store fclass_filtro = [] ∧
    obtener_datos_filtrados reproj store fclass_filtro =
      obtener_datos_filtrados reproj storeVacia fclass_filtro := by
  have h1 : obtener_datos_filtrados reproj store fclass_filtro = [] := by
    simp [obtener_datos_filtrados, obtener_datos_filtrados_run, get_db_connection, h]
  have h2 : obtener_datos_filtrados reproj storeVacia fclass_filtro = [] := by
    cases hp : (construir_consulta fclass_filtro).2 <;>
      simp [obtener_datos_filtrados, obtener_datos_filtrados_run, get_db_connection,
        ejecutar_consulta, storeVacia, hp]
  exact ⟨h1, h1.trans h2.symm⟩

/-- C10 witness: the unreachable store raises a connection error and
the caller receives the same empty set an empty table yields. -/
theorem obtener_total_empty_on_failure_witness :
    (ejecutar_consulta reprojId storeCaida (construir_consulta none) =
      Except.error DbError.connectionError) ∧
    (obtener_datos_filtrados reprojId storeCaida none = [] ∧
      obtener_datos_filtrados reprojId storeCaida none =
        obtener_datos_filtrados reprojId storeVacia none) :=
  ⟨rfl,
   obtener_total_empty_on_failure reprojId storeCaida none
     DbError.connectionError rfl⟩

end Geo
